import Mathlib

/-!
Verification of the loophole CLI tunnel subsystem against its specification.

The Go sources are shallowly embedded: the token store (package token) is
modelled as explicit state passing over the content of tokens.json, and the
supervisor (package loophole) as a trace semantics over an oracle environment
supplying the outcomes of registration calls, token refreshes and gateway
dials.  File-system and network failures outside the claims are elided; JSON
marshalling of a TokenSpec followed by unmarshalling is the identity on the
five stored fields, so the tokens.json file is modelled by an
`Option TokenSpec` (none = file absent or unreadable).
-/

namespace Token

/-- TokenSpec mirrors the Go struct of the same name: the five JSON fields
persisted in tokens.json. -/
structure TokenSpec where
  accessToken : String
  refreshToken : String
  idToken : String
  tokenType : String
  expiresIn : Int
deriving DecidableEq, Repr

/-- AuthError mirrors the Go struct decoded from 4xx token-endpoint bodies. -/
structure AuthError where
  error : String
  errorDescription : String
deriving DecidableEq, Repr

/-- Result of the HTTP POST performed by RefreshToken.  The raw body may or
may not decode as an AuthError and as a TokenSpec; both views are carried so
the two json.Unmarshal calls of the Go code can be modelled. -/
structure HTTPResponse where
  statusCode : Int
  bodyAsAuthError : Option AuthError
  bodyAsTokenSpec : Option TokenSpec
  rawBody : String
deriving DecidableEq, Repr

/-- SaveToken marshals the token and overwrites tokens.json (mode 0644);
the previous file content is irrelevant. -/
def SaveToken (_file : Option TokenSpec) (token : TokenSpec) : Option TokenSpec :=
  some token

/-- GetAccessToken reads tokens.json and returns the access_token field. -/
def GetAccessToken (file : Option TokenSpec) : Except String String :=
  match file with
  | none => .error "There was a problem reading tokens"
  | some t => .ok t.accessToken

/-- GetRefreshToken reads tokens.json and returns the refresh_token field. -/
def GetRefreshToken (file : Option TokenSpec) : Except String String :=
  match file with
  | none => .error "There was a problem reading tokens"
  | some t => .ok t.refreshToken

/-- RefreshToken, translated branch for branch from the Go source: read the
stored refresh token, POST the refresh grant, then branch on the status code.
On a status strictly between 400 and 500 the body is decoded as an AuthError
and only the three recognised error strings produce an error return — any
other decodable 4xx body falls through to the final `return nil`.  On a
status between 200 and 300 (inclusive) the body is decoded as a TokenSpec,
its refresh_token field is overwritten with the previously stored one, and
the result is saved.  Every other status returns the unexpected-response
error. -/
def RefreshToken (file : Option TokenSpec) (res : HTTPResponse) :
    Except String (Option TokenSpec) :=
  match GetRefreshToken file with
  | .error e => .error e
  | .ok token =>
    if res.statusCode > 400 ∧ res.statusCode < 500 then
      match res.bodyAsAuthError with
      | none => .error "There was a problem decoding token response body"
      | some ae =>
        if ae.error = "expired_token" ∨ ae.error = "invalid_grand" then
          .error "The device token expired, please reinitialize the login"
        else if ae.error = "access_denied" then
          .error "The device token got denied, please reinitialize the login"
        else
          .ok file
    else if res.statusCode ≥ 200 ∧ res.statusCode ≤ 300 then
      match res.bodyAsTokenSpec with
      | none => .error "There was a problem decoding token response body"
      | some ts =>
        .ok (SaveToken file { ts with refreshToken := token })
    else
      .error ("Unexpected response from authorization server: " ++ res.rawBody)

/-- Recognised AuthError strings of the RefreshToken 4xx branch. -/
def recognizedAuthError (e : String) : Prop :=
  e = "expired_token" ∨ e = "invalid_grand" ∨ e = "access_denied"

instance (e : String) : Decidable (recognizedAuthError e) := by
  unfold recognizedAuthError; infer_instance

/-- Concrete token pair stored before a refresh. -/
def oldTokens : TokenSpec :=
  { accessToken := "acc0", refreshToken := "oldrefresh", idToken := "id0"
    tokenType := "Bearer", expiresIn := 3600 }

/-- Concrete token pair returned by the issuer, with a fresh non-empty
refresh token. -/
def newTokens : TokenSpec :=
  { accessToken := "acc1", refreshToken := "newrefresh", idToken := "id1"
    tokenType := "Bearer", expiresIn := 3600 }

/-- Concrete 200 response whose body carries `newTokens`. -/
def refreshRes200 : HTTPResponse :=
  { statusCode := 200, bodyAsAuthError := none
    bodyAsTokenSpec := some newTokens, rawBody := "" }

/-- Concrete 401 response whose body decodes to an unrecognised error. -/
def res401unrecognized : HTTPResponse :=
  { statusCode := 401, bodyAsAuthError := some ⟨"server_error", "boom"⟩
    bodyAsTokenSpec := none, rawBody := "raw" }

/-- Concrete response with a status that is neither 2xx nor 4xx. -/
def resOther : HTTPResponse :=
  { statusCode := 700, bodyAsAuthError := none
    bodyAsTokenSpec := none, rawBody := "bad" }

end Token

namespace Token

/-- Claim C9: saving a TokenPair with the token store and then reading back
the access token and the refresh token yields exactly the fields that were
saved. -/
theorem claim_C9_save_then_read (file : Option TokenSpec) (t : TokenSpec) :
    GetAccessToken (SaveToken file t) = .ok t.accessToken ∧
    GetRefreshToken (SaveToken file t) = .ok t.refreshToken :=
  ⟨rfl, rfl⟩

/-- Claim C1 counterexample: the issuer answers 2xx with an explicit fresh
non-empty refresh_token ("newrefresh"), yet the stored refresh_token after
the successful refresh is still the previous one ("oldrefresh") — line 218
of the Go source overwrites the response field unconditionally.  The claim
says the new value would be stored in this case. -/
theorem claim_C1_counterexample :
    RefreshToken (some oldTokens) refreshRes200 =
      .ok (some { newTokens with refreshToken := "oldrefresh" }) ∧
    newTokens.refreshToken = "newrefresh" ∧
    GetRefreshToken (some { newTokens with refreshToken := "oldrefresh" }) =
      .ok "oldrefresh" ∧
    ("oldrefresh" : String) ≠ "newrefresh" :=
  ⟨rfl, rfl, rfl, by decide⟩

/-- Claim C1 amended: after every successful RefreshToken call the stored
refresh_token equals the previously stored one unconditionally — the value
returned by the issuer is always discarded, even when it is new and
non-empty. -/
theorem claim_C1_amended (file out : Option TokenSpec) (res : HTTPResponse)
    (h : RefreshToken file res = .ok out) :
    GetRefreshToken out = GetRefreshToken file := by
  cases file with
  | none => simp [RefreshToken, GetRefreshToken] at h
  | some t =>
    simp only [RefreshToken, GetRefreshToken] at h
    split at h
    · cases hb : res.bodyAsAuthError with
      | none => rw [hb] at h; simp at h
      | some ae =>
        rw [hb] at h
        split at h
        · simp at h
        · split at h
          · simp at h
          · split at h
            · simp at h
            · simp only [Except.ok.injEq] at h
              rw [← h]
    · split at h
      · cases hb : res.bodyAsTokenSpec with
        | none => rw [hb] at h; simp at h
        | some ts =>
          rw [hb] at h
          simp only [Except.ok.injEq, SaveToken] at h
          rw [← h]
          simp [GetRefreshToken]
      · simp at h

/-- Witness for claim_C1_amended at the concrete 200 response. -/
theorem claim_C1_amended_witness :
    GetRefreshToken (some { newTokens with refreshToken := "oldrefresh" }) =
      GetRefreshToken (some oldTokens) :=
  claim_C1_amended (some oldTokens)
    (some { newTokens with refreshToken := "oldrefresh" }) refreshRes200 rfl

/-- Claim C4 counterexample: on status 401 with a decodable body whose error
field is unrecognised ("server_error"), the claim requires an
unexpected-response error, but RefreshToken returns success with the store
unchanged — the Go 4xx branch falls through to `return nil` without saving. -/
theorem claim_C4_counterexample :
    RefreshToken (some oldTokens) res401unrecognized = .ok (some oldTokens) :=
  rfl

/-- Claim C4 amended: on a status strictly between 400 and 500 with a
decodable AuthError body, the two recognised expiry errors and access_denied
produce the reinitialize-login errors, while any other decodable body makes
RefreshToken return success without saving; on a status in [200, 300] the
prior refresh token is merged into the response body and saved; on every
status outside (400, 500) and outside [200, 300] the unexpected-response
error is returned. -/
theorem claim_C4_amended (file : Option TokenSpec) (res : HTTPResponse)
    (tok : String) (hf : GetRefreshToken file = .ok tok) :
    ((res.statusCode > 400 ∧ res.statusCode < 500) →
      ∀ ae, res.bodyAsAuthError = some ae →
        ((ae.error = "expired_token" ∨ ae.error = "invalid_grand") →
            RefreshToken file res =
              .error "The device token expired, please reinitialize the login") ∧
        (ae.error = "access_denied" →
            RefreshToken file res =
              .error "The device token got denied, please reinitialize the login") ∧
        (¬ recognizedAuthError ae.error → RefreshToken file res = .ok file)) ∧
    ((res.statusCode ≥ 200 ∧ res.statusCode ≤ 300) →
      ∀ ts, res.bodyAsTokenSpec = some ts →
        RefreshToken file res = .ok (some { ts with refreshToken := tok })) ∧
    (¬(res.statusCode > 400 ∧ res.statusCode < 500) →
      ¬(res.statusCode ≥ 200 ∧ res.statusCode ≤ 300) →
        RefreshToken file res =
          .error ("Unexpected response from authorization server: " ++ res.rawBody)) := by
  refine ⟨?_, ?_, ?_⟩
  · intro hs ae hae
    have h4 : ¬(res.statusCode > 400 ∧ res.statusCode < 500) → False := fun hc => hc hs
    refine ⟨?_, ?_, ?_⟩
    · intro hrec
      unfold RefreshToken
      rw [hf, hae]
      simp [hs, hrec]
    · intro hden
      unfold RefreshToken
      rw [hf, hae]
      have : ¬(ae.error = "expired_token" ∨ ae.error = "invalid_grand") := by
        rintro (h1 | h1) <;> simp [h1] at hden
      simp [hs, this, hden]
    · intro hun
      unfold RefreshToken
      rw [hf, hae]
      unfold recognizedAuthError at hun
      push_neg at hun
      simp [hs, hun.1, hun.2.1, hun.2.2]
  · intro hs ts hts
    have hnot4 : ¬(res.statusCode > 400 ∧ res.statusCode < 500) := by
      rintro ⟨h1, h2⟩
      omega
    unfold RefreshToken
    rw [hf, hts]
    simp [hs, hnot4, SaveToken]
  · intro h4 h2
    unfold RefreshToken
    rw [hf]
    simp [h4, h2]

/-- Witness for claim_C4_amended at the concrete status-700 response. -/
theorem claim_C4_amended_witness :
    RefreshToken (some oldTokens) resOther =
      .error ("Unexpected response from authorization server: " ++ resOther.rawBody) :=
  (claim_C4_amended (some oldTokens) resOther "oldrefresh" rfl).2.2
    (by decide) (by decide)

end Token

namespace Loophole

/-- Endpoint mirrors the models.Endpoint struct (host plus port) with the
Go String() form host:port. -/
structure Endpoint where
  host : String
  port : Int
deriving DecidableEq, Repr

/-- String form of an endpoint, as the Go Endpoint.String method renders it. -/
def Endpoint.string (e : Endpoint) : String :=
  e.host ++ ":" ++ toString e.port

/-- Config carries the fields of lm.Config that the supervisor reads: the
local target host and port, the requested site identifier and the qr flag.
The gateway endpoint and identity file only feed the oracles below. -/
structure Config where
  host : String
  port : Int
  siteID : String
  qr : Bool
deriving DecidableEq, Repr

/-- SiteSpecification as returned by client.RegisterSite: the assigned site
identifier and the integer result code; the zero value (resultCode 0) marks
a specification that has not been used yet. -/
structure SiteSpecification where
  siteID : String
  resultCode : Int
deriving DecidableEq, Repr

/-- Outcome of one client.RegisterSite call: the returned specification and,
for the error case, the accompanying error message. -/
inductive RegisterOutcome where
  | ok (spec : SiteSpecification)
  | err (spec : SiteSpecification) (msg : String)
deriving DecidableEq, Repr

/-- Oracle environment supplying the outcomes of the external calls made by
generateListener: RegisterSite (indexed by session build and call number
within the build), token.RefreshToken, and ssh.Dial (indexed by session
build and attempt number). -/
structure Env where
  register : Nat → Nat → RegisterOutcome
  refreshOk : Bool
  dialOk : Nat → Nat → Bool

/-- Observable events performed by the supervisor, in program order.  A
fatalExit models log.Fatal: the process exits with code 1 and no further
events occur. -/
inductive Event where
  | registerSite
  | refreshTokenCall
  | dialGateway (attempt : Nat)
  | sleep10
  | createCertManager (whitelist : List String) (email : String) (cacheDir : String)
  | createReverseProxy (target : String)
  | listenLoopback (port : Int)
  | startTLSServerTask
  | listenRemote
  | printForwarding (publicURL : String) (localTarget : String)
  | printQR (payload : String)
  | closeRemoteListener
  | logAcceptError
  | acceptConn
  | dialLocal (target : String)
  | fatalExit (msg : String)
deriving DecidableEq, Repr

/-- Registration step of generateListener (loophole.go lines 189-234):
skipped entirely when the sticky specification has already been used
(resultCode not 0); otherwise one RegisterSite call, with the 401 result
triggering exactly one RefreshToken call and one retry, and every other
error result fatal. -/
def registrationPhase (sticky : SiteSpecification) (env : Env) (b : Nat) :
    List Event × Option SiteSpecification :=
  if sticky.resultCode ≠ 0 then ([], some sticky)
  else
    match env.register b 0 with
    | .ok spec => ([.registerSite], some spec)
    | .err spec _ =>
      if spec.resultCode = 400 then
        ([.registerSite, .fatalExit "Please fix the issue and try again"], none)
      else if spec.resultCode = 401 then
        if env.refreshOk then
          match env.register b 1 with
          | .ok spec2 =>
            ([.registerSite, .refreshTokenCall, .registerSite], some spec2)
          | .err _ _ =>
            ([.registerSite, .refreshTokenCall, .registerSite,
              .fatalExit "Failed to register site, try logging in again"], none)
        else
          ([.registerSite, .refreshTokenCall,
            .fatalExit "Failed to refresh token, try logging in again"], none)
      else if spec.resultCode = 403 then
        ([.registerSite,
          .fatalExit "You don\x27t have required permissions to establish tunnel with given parameters"], none)
      else if spec.resultCode = 409 then
        ([.registerSite,
          .fatalExit "The given hostname is already taken by different used"], none)
      else if spec.resultCode = 600 ∨ spec.resultCode = 601 then
        ([.registerSite, .fatalExit "Looks like you\x27re not logged in"], none)
      else
        ([.registerSite,
          .fatalExit "Something unexpected happened, please let developers know"], none)

/-- Number of dial retries fixed by the Go source (sshRetries). -/
def sshRetries : Nat := 5

/-- Dial loop of generateListener (loophole.go lines 250-262), written with
the number of remaining loop iterations (sshRetries - i) as structural fuel:
attempt i, then on failure sleep 10 seconds and continue while iterations
remain and no attempt succeeded. -/
def dialAttemptsAux (dialOk : Nat → Bool) : Nat → Nat → List Event × Bool
  | _, 0 => ([], false)
  | i, rem + 1 =>
    if dialOk i then ([.dialGateway i], true)
    else
      (.dialGateway i :: .sleep10 :: (dialAttemptsAux dialOk (i + 1) rem).1,
        (dialAttemptsAux dialOk (i + 1) rem).2)

/-- Dial loop entered at attempt i with the loop guard i < sshRetries.
Returns the emitted events and the final sshSuccess flag. -/
def dialAttempts (dialOk : Nat → Bool) (i : Nat) : List Event × Bool :=
  dialAttemptsAux dialOk i (sshRetries - i)

/-- Host whitelist passed to autocert.HostWhitelist: the site hostname and
the stray literal second entry present in the source. -/
def certWhitelist (siteID : String) : List String :=
  [siteID ++ ".loophole.site", "abc.loophole.site"]

/-- Contact email passed to the autocert manager. -/
def certEmail (siteID : String) : String :=
  siteID ++ "@loophole.main.dev"

/-- Trace semantics of generateListener for session build b, given the
loopback port the kernel assigns to the net.Listen(":0") call of that
build.  Returns the events in program order and, unless a fatal exit
occurred, the proxied endpoint and the (possibly newly registered) site
specification that the function returns. -/
def generateListener (cfg : Config) (sticky : SiteSpecification) (env : Env)
    (b : Nat) (port : Int) : List Event × Option (Endpoint × SiteSpecification) :=
  match registrationPhase sticky env b with
  | (evs, none) => (evs, none)
  | (evs, some spec) =>
    if (dialAttempts (env.dialOk b) 0).2 then
      (evs ++ (dialAttempts (env.dialOk b) 0).1 ++
        [.createCertManager (certWhitelist spec.siteID) (certEmail spec.siteID) "certs",
         .createReverseProxy ("http://" ++ cfg.host ++ ":" ++ toString cfg.port),
         .listenLoopback port,
         .startTLSServerTask,
         .listenRemote,
         .printForwarding ("https://" ++ spec.siteID ++ ".loophole.site")
           (cfg.host ++ ":" ++ toString cfg.port)] ++
        (if cfg.qr then [.printQR ("http://" ++ spec.siteID ++ ".loophole.site")] else []),
       some (⟨"127.0.0.1", port⟩, spec))
    else
      (evs ++ (dialAttempts (env.dialOk b) 0).1 ++
        [.fatalExit "Dialing SSH Gateway for HTTPS failed."], none)

/-- Result of one listener.Accept call, as seen by the Start loop. -/
inductive AcceptResult where
  | eof
  | err
  | conn
deriving DecidableEq, Repr

/-- Accept loop of Start (loophole.go lines 382-406): on EOF close the old
remote listener and rebuild the session with the sticky specification,
discarding the endpoint and specification the rebuild returns; on any other
error log and continue; on a connection dial the recorded proxied endpoint
and relay.  The loop is driven by the finite list of accept results the
gateway produces. -/
def acceptLoop (cfg : Config) (env : Env) (ports : Nat → Int)
    (ep : Endpoint) (spec : SiteSpecification) :
    Nat → List AcceptResult → List Event
  | _, [] => []
  | b, .eof :: rest =>
    .closeRemoteListener ::
      (match generateListener cfg spec env b (ports b) with
       | (evs, none) => evs
       | (evs, some _) => evs ++ acceptLoop cfg env ports ep spec (b + 1) rest)
  | b, .err :: rest => .logAcceptError :: acceptLoop cfg env ports ep spec b rest
  | b, .conn :: rest =>
    .acceptConn :: .dialLocal ep.string :: acceptLoop cfg env ports ep spec b rest

/-- Zero value of SiteSpecification, passed by Start to the first build. -/
def zeroSpec : SiteSpecification :=
  { siteID := "", resultCode := 0 }

/-- Trace of Start: the first session build followed by the accept loop,
which keeps the endpoint and specification of the first build for its whole
run.  ports b is the loopback port the kernel assigns during build b. -/
def startTrace (cfg : Config) (env : Env) (ports : Nat → Int)
    (accepts : List AcceptResult) : List Event :=
  match generateListener cfg zeroSpec env 0 (ports 0) with
  | (evs, none) => evs
  | (evs, some (ep, spec)) => evs ++ acceptLoop cfg env ports ep spec 1 accepts

/-- Concrete environment where every external call succeeds at once. -/
def happyEnv : Env :=
  { register := fun _ _ => .ok { siteID := "mysite", resultCode := 200 }
  , refreshOk := true
  , dialOk := fun _ _ => true }

/-- Concrete configuration exposing 127.0.0.1:3000 with the qr flag set. -/
def baseConfig : Config :=
  { host := "127.0.0.1", port := 3000, siteID := "", qr := true }

/-- Concrete loopback port assignment, one fresh port per session build. -/
def portsSeq : Nat → Int :=
  fun b => 40000 + (b : Int)

/-- Predicate matching gateway dial events. -/
def isDialGateway : Event → Bool
  | .dialGateway _ => true
  | _ => false

/-- Predicate matching RegisterSite call events. -/
def isRegisterSite : Event → Bool
  | .registerSite => true
  | _ => false

/-- Predicate matching token refresh call events. -/
def isRefreshCall : Event → Bool
  | .refreshTokenCall => true
  | _ => false

/-- Predicate matching certificate manager creation events. -/
def isCertManager : Event → Bool
  | .createCertManager _ _ _ => true
  | _ => false

/-- Predicate matching loopback TLS listener creation events. -/
def isListenLoopback : Event → Bool
  | .listenLoopback _ => true
  | _ => false

/-- Predicate matching TLS server task starts. -/
def isTLSServerTask : Event → Bool
  | .startTLSServerTask => true
  | _ => false

/-- Predicate matching reverse proxy creation events. -/
def isReverseProxy : Event → Bool
  | .createReverseProxy _ => true
  | _ => false

/-- Predicate matching local dial events. -/
def isDialLocal : Event → Bool
  | .dialLocal _ => true
  | _ => false

/-- Shape of the events a registration phase can emit: RegisterSite calls,
RefreshToken calls and fatal exits only. -/
theorem registrationPhase_shape (sticky : SiteSpecification) (env : Env) (b : Nat) :
    ∀ e ∈ (registrationPhase sticky env b).1,
      e = Event.registerSite ∨ e = Event.refreshTokenCall ∨ ∃ m, e = Event.fatalExit m := by
  intro e he
  unfold registrationPhase at he
  repeat' split at he
  all_goals simp_all
  all_goals tauto

/-- Shape of the events the dial loop can emit: dial attempts and sleeps
only. -/
theorem dialAttemptsAux_shape (dialOk : Nat → Bool) :
    ∀ rem i, ∀ e ∈ (dialAttemptsAux dialOk i rem).1,
      (∃ a, e = Event.dialGateway a) ∨ e = Event.sleep10 := by
  intro rem
  induction rem with
  | zero =>
    intro i e he
    simp [dialAttemptsAux] at he
  | succ n ih =>
    intro i e he
    by_cases hd : dialOk i
    · simp [dialAttemptsAux, hd] at he
      exact Or.inl ⟨i, he⟩
    · simp [dialAttemptsAux, hd] at he
      rcases he with he | he | he
      · exact Or.inl ⟨i, he⟩
      · exact Or.inr he
      · exact ih (i + 1) e he

/-- Expected event list of d consecutive failed dial attempts starting at
attempt i: each attempt is followed by a 10-second sleep. -/
def failDialEvents : Nat → Nat → List Event
  | _, 0 => []
  | i, d + 1 => .dialGateway i :: .sleep10 :: failDialEvents (i + 1) d

/-- Dial loop outcome when every attempt in range fails: rem attempts each
followed by a sleep, and no success. -/
theorem dialAttemptsAux_allFail (dialOk : Nat → Bool) :
    ∀ rem i, (∀ k, i ≤ k → k < i + rem → dialOk k = false) →
      dialAttemptsAux dialOk i rem = (failDialEvents i rem, false) := by
  intro rem
  induction rem with
  | zero =>
    intro i _
    simp [dialAttemptsAux, failDialEvents]
  | succ n ih =>
    intro i hall
    have h2 : dialOk i = false := hall i le_rfl (by omega)
    have ihh := ih (i + 1) (fun k hk1 hk2 => hall k (by omega) (by omega))
    simp [dialAttemptsAux, h2, ihh, failDialEvents]

/-- Dial loop outcome of generateListener when the first 5 attempts fail. -/
theorem dialAttempts_allFail (dialOk : Nat → Bool)
    (hall : ∀ k, k < sshRetries → dialOk k = false) :
    dialAttempts dialOk 0 = (failDialEvents 0 sshRetries, false) := by
  unfold dialAttempts
  simpa using dialAttemptsAux_allFail dialOk sshRetries 0
    (fun k _ hk2 => hall k (by omega))

/-- Dial loop outcome when attempt j is the first success: the failed
attempts before it each followed by a sleep, then attempt j, then the loop
stops with success. -/
theorem dialAttemptsAux_firstSuccess (dialOk : Nat → Bool) :
    ∀ rem i j, i ≤ j → j < i + rem → dialOk j = true →
      (∀ k, i ≤ k → k < j → dialOk k = false) →
      dialAttemptsAux dialOk i rem =
        (failDialEvents i (j - i) ++ [.dialGateway j], true) := by
  intro rem
  induction rem with
  | zero =>
    intro i j hij hlt
    omega
  | succ m ih =>
    intro i j hij hlt hok hall
    by_cases hji : j = i
    · subst hji
      simp [dialAttemptsAux, hok, Nat.sub_self, failDialEvents]
    · have h2 : dialOk i = false := hall i le_rfl (by omega)
      have ihh := ih (i + 1) j (by omega) (by omega) hok
        (fun k hk1 hk2 => hall k (by omega) hk2)
      simp [dialAttemptsAux, h2, ihh]
      have hd : j - i = (j - (i + 1)) + 1 := by omega
      rw [hd]
      simp [failDialEvents]

/-- Dial loop outcome of generateListener when attempt j < 5 is the first
success. -/
theorem dialAttempts_firstSuccess (dialOk : Nat → Bool) (j : Nat)
    (hj : j < sshRetries) (hok : dialOk j = true)
    (hall : ∀ k, k < j → dialOk k = false) :
    dialAttempts dialOk 0 = (failDialEvents 0 j ++ [.dialGateway j], true) := by
  unfold dialAttempts
  simpa using dialAttemptsAux_firstSuccess dialOk (sshRetries - 0) 0 j (by omega)
    (by omega) hok (fun k _ hk2 => hall k hk2)

/-- Counting a predicate over the registration phase: zero when the
predicate rejects every event shape the phase can emit. -/
theorem registrationPhase_countP (p : Event → Bool)
    (h1 : p .registerSite = false) (h2 : p .refreshTokenCall = false)
    (h3 : ∀ m, p (.fatalExit m) = false)
    (sticky : SiteSpecification) (env : Env) (b : Nat) :
    (registrationPhase sticky env b).1.countP p = 0 := by
  rw [List.countP_eq_zero]
  intro e he
  rcases registrationPhase_shape sticky env b e he with h | h | ⟨m, h⟩ <;>
    simp [h, h1, h2, h3]

/-- Counting a predicate over the dial loop: zero when the predicate rejects
dial attempts and sleeps. -/
theorem dialAttempts_countP (p : Event → Bool)
    (h1 : ∀ a, p (.dialGateway a) = false) (h2 : p .sleep10 = false)
    (dialOk : Nat → Bool) (i : Nat) :
    (dialAttempts dialOk i).1.countP p = 0 := by
  rw [List.countP_eq_zero]
  intro e he
  rcases dialAttemptsAux_shape dialOk (sshRetries - i) i e he with ⟨a, h⟩ | h <;>
    simp [h, h1, h2]

/-- Number of dial attempts in d consecutive failures. -/
theorem failDialEvents_countDials :
    ∀ d j, (failDialEvents j d).countP isDialGateway = d := by
  intro d
  induction d with
  | zero => intro j; simp [failDialEvents]
  | succ n ih =>
    intro j
    simp [failDialEvents, List.countP_cons, ih, isDialGateway]

/-- Upper bound on the number of dial attempts the loop performs. -/
theorem dialAttemptsAux_countDials_le (dialOk : Nat → Bool) :
    ∀ rem i, (dialAttemptsAux dialOk i rem).1.countP isDialGateway ≤ rem := by
  intro rem
  induction rem with
  | zero =>
    intro i
    simp [dialAttemptsAux]
  | succ n ih =>
    intro i
    by_cases hd : dialOk i
    · simp [dialAttemptsAux, hd, List.countP_cons, isDialGateway]
    · simp [dialAttemptsAux, hd, List.countP_cons, isDialGateway]
      have := ih (i + 1)
      omega

/-- Counting a predicate over a full session build: zero when the predicate
rejects every event shape generateListener can emit. -/
theorem generateListener_countP (p : Event → Bool)
    (h1 : p .registerSite = false) (h2 : p .refreshTokenCall = false)
    (h3 : ∀ m, p (.fatalExit m) = false)
    (h4 : ∀ a, p (.dialGateway a) = false) (h5 : p .sleep10 = false)
    (h6 : ∀ w e c, p (.createCertManager w e c) = false)
    (h7 : ∀ s, p (.createReverseProxy s) = false)
    (h8 : ∀ po, p (.listenLoopback po) = false)
    (h9 : p .startTLSServerTask = false) (h10 : p .listenRemote = false)
    (h11 : ∀ a c, p (.printForwarding a c) = false)
    (h12 : ∀ s, p (.printQR s) = false)
    (cfg : Config) (sticky : SiteSpecification) (env : Env) (b : Nat) (port : Int) :
    (generateListener cfg sticky env b port).1.countP p = 0 := by
  unfold generateListener
  cases hr : registrationPhase sticky env b with
  | mk evs os =>
    have hevs : evs.countP p = 0 := by
      have := registrationPhase_countP p h1 h2 h3 sticky env b
      rw [hr] at this
      exact this
    have hdial : (dialAttempts (env.dialOk b) 0).1.countP p = 0 :=
      dialAttempts_countP p h4 h5 _ 0
    cases os with
    | none => simpa using hevs
    | some spec =>
      by_cases hd : (dialAttempts (env.dialOk b) 0).2
      · simp only [hd, if_pos]
        simp [List.countP_append, hevs, hdial, List.countP_cons,
          h6, h7, h8, h9, h10, h11, h12]
      · simp only [hd, if_neg, Bool.false_eq_true, not_false_iff]
        simp [List.countP_append, hevs, hdial, List.countP_cons, h3]

/-- A session build never dials the local proxy: local dials happen only in
the accept loop. -/
theorem generateListener_no_dialLocal (cfg : Config) (sticky : SiteSpecification)
    (env : Env) (b : Nat) (port : Int) (t : String) :
    Event.dialLocal t ∉ (generateListener cfg sticky env b port).1 := by
  intro hmem
  have h0 := generateListener_countP isDialLocal rfl rfl (fun _ => rfl) (fun _ => rfl)
    rfl (fun _ _ _ => rfl) (fun _ => rfl) (fun _ => rfl) rfl rfl (fun _ _ => rfl)
    (fun _ => rfl) cfg sticky env b port
  rw [List.countP_eq_zero] at h0
  exact absurd rfl (h0 _ hmem)

/-- Every local dial the accept loop performs targets the endpoint it was
started with. -/
theorem acceptLoop_dialLocal (cfg : Config) (env : Env) (ports : Nat → Int)
    (ep : Endpoint) (spec : SiteSpecification) :
    ∀ accepts b t, Event.dialLocal t ∈ acceptLoop cfg env ports ep spec b accepts →
      t = ep.string := by
  intro accepts
  induction accepts with
  | nil =>
    intro b t h
    simp [acceptLoop] at h
  | cons a rest ih =>
    intro b t h
    cases a with
    | eof =>
      rw [acceptLoop] at h
      rcases List.mem_cons.mp h with h | h
      · simp at h
      · cases hgen : generateListener cfg spec env b (ports b) with
        | mk evs os =>
          rw [hgen] at h
          cases os with
          | none =>
            exact absurd (hgen ▸ h : Event.dialLocal t ∈ (generateListener cfg spec env b (ports b)).1)
              (generateListener_no_dialLocal cfg spec env b (ports b) t)
          | some pr =>
            rcases List.mem_append.mp h with h | h
            · exact absurd (show Event.dialLocal t ∈ (generateListener cfg spec env b (ports b)).1 by
                rw [hgen]; exact h) (generateListener_no_dialLocal cfg spec env b (ports b) t)
            · exact ih (b + 1) t h
    | err =>
      rw [acceptLoop] at h
      rcases List.mem_cons.mp h with h | h
      · simp at h
      · exact ih b t h
    | conn =>
      rw [acceptLoop] at h
      rcases List.mem_cons.mp h with h | h
      · simp at h
      · rcases List.mem_cons.mp h with h | h
        · simpa using h
        · exact ih b t h

/-- Concrete specification already used once (result code 200). -/
def mySpec : SiteSpecification :=
  { siteID := "mysite", resultCode := 200 }

/-- Concrete environment whose gateway dial always fails. -/
def deadDialEnv : Env :=
  { register := fun _ _ => .ok mySpec
  , refreshOk := true
  , dialOk := fun _ _ => false }

/-- Claim C6: within one generateListener run whose registration phase
succeeded, the gateway dial is attempted at most 5 times, each failed
attempt followed by a 10-second sleep; if the first 5 attempts all fail the
build ends in the fatal "Dialing SSH Gateway for HTTPS failed." exit
(log.Fatal, process exits non-zero) and no session is produced; if attempt
j < 5 is the first success, exactly j+1 attempts are made and startup
proceeds with the session built. -/
theorem claim_C6 (cfg : Config) (sticky spec : SiteSpecification) (env : Env)
    (b : Nat) (port : Int) (revs : List Event)
    (hreg : registrationPhase sticky env b = (revs, some spec)) :
    (generateListener cfg sticky env b port).1.countP isDialGateway ≤ sshRetries ∧
    ((∀ k, k < sshRetries → env.dialOk b k = false) →
      generateListener cfg sticky env b port =
        (revs ++ (failDialEvents 0 sshRetries ++
          [.fatalExit "Dialing SSH Gateway for HTTPS failed."]), none)) ∧
    (∀ j, j < sshRetries → env.dialOk b j = true →
      (∀ k, k < j → env.dialOk b k = false) →
      (generateListener cfg sticky env b port).1.countP isDialGateway = j + 1 ∧
      (generateListener cfg sticky env b port).2 = some (⟨"127.0.0.1", port⟩, spec)) := by
  have hrev : revs.countP isDialGateway = 0 := by
    have := registrationPhase_countP isDialGateway rfl rfl (fun _ => rfl) sticky env b
    rw [hreg] at this
    exact this
  refine ⟨?_, ?_, ?_⟩
  · unfold generateListener
    rw [hreg]
    have hle : (dialAttempts (env.dialOk b) 0).1.countP isDialGateway ≤ sshRetries := by
      unfold dialAttempts
      simpa using dialAttemptsAux_countDials_le (env.dialOk b) (sshRetries - 0) 0
    by_cases hd : (dialAttempts (env.dialOk b) 0).2
    · simp only [hd, if_pos]
      simp [List.countP_append, hrev, List.countP_cons, isDialGateway]
      cases cfg.qr <;> simp [List.countP_cons, isDialGateway] <;> omega
    · simp only [hd, if_neg, Bool.false_eq_true, not_false_iff]
      simp [List.countP_append, hrev, List.countP_cons, isDialGateway]
      omega
  · intro hall
    have hfail := dialAttempts_allFail (env.dialOk b) hall
    unfold generateListener
    rw [hreg, hfail]
    simp
  · intro j hj hok hbefore
    have hfirst := dialAttempts_firstSuccess (env.dialOk b) j hj hok hbefore
    constructor
    · unfold generateListener
      rw [hreg, hfirst]
      simp [List.countP_append, hrev, List.countP_cons, isDialGateway,
        failDialEvents_countDials]
    · unfold generateListener
      rw [hreg, hfirst]
      simp

/-- Witness for claim_C6 in the environment whose dial always fails. -/
theorem claim_C6_witness :
    generateListener baseConfig mySpec deadDialEnv 0 40000 =
      ([] ++ (failDialEvents 0 sshRetries ++
        [.fatalExit "Dialing SSH Gateway for HTTPS failed."]), none) :=
  (claim_C6 baseConfig mySpec mySpec deadDialEnv 0 40000 []
    (by simp [registrationPhase, mySpec])).2.1 (fun _ _ => rfl)

/-- Concrete environment whose first RegisterSite call returns 401 and whose
token refresh fails. -/
def env401refreshFail : Env :=
  { register := fun _ n =>
      if n = 0 then .err { siteID := "x", resultCode := 401 } "unauthorized"
      else .ok { siteID := "x", resultCode := 200 }
  , refreshOk := false
  , dialOk := fun _ _ => true }

/-- Claim C7: when the first registration attempt of a build returns result
code 401, the token store refresh is invoked exactly once and registration
is retried exactly once; a failed refresh or a failed retry ends in a fatal
exit; and no registration phase ever performs more than two RegisterSite
calls. -/
theorem claim_C7 (sticky : SiteSpecification) (env : Env) (b : Nat)
    (spec : SiteSpecification) (msg : String)
    (hsticky : sticky.resultCode = 0)
    (hfirst : env.register b 0 = .err spec msg)
    (h401 : spec.resultCode = 401) :
    (registrationPhase sticky env b).1.countP isRefreshCall = 1 ∧
    (env.refreshOk = false →
      registrationPhase sticky env b =
        ([.registerSite, .refreshTokenCall,
          .fatalExit "Failed to refresh token, try logging in again"], none)) ∧
    (env.refreshOk = true →
      (registrationPhase sticky env b).1.countP isRegisterSite = 2 ∧
      (∀ s2, env.register b 1 = .ok s2 →
        registrationPhase sticky env b =
          ([.registerSite, .refreshTokenCall, .registerSite], some s2)) ∧
      (∀ s2 m2, env.register b 1 = .err s2 m2 →
        registrationPhase sticky env b =
          ([.registerSite, .refreshTokenCall, .registerSite,
            .fatalExit "Failed to register site, try logging in again"], none))) ∧
    (∀ st : SiteSpecification, ∀ en : Env, ∀ bb : Nat,
      (registrationPhase st en bb).1.countP isRegisterSite ≤ 2) := by
  have hbase : registrationPhase sticky env b =
      (if env.refreshOk then
        (match env.register b 1 with
         | .ok spec2 => ([.registerSite, .refreshTokenCall, .registerSite], some spec2)
         | .err _ _ => ([.registerSite, .refreshTokenCall, .registerSite,
             .fatalExit "Failed to register site, try logging in again"], none))
       else ([.registerSite, .refreshTokenCall,
         .fatalExit "Failed to refresh token, try logging in again"], none)) := by
    unfold registrationPhase
    rw [hfirst]
    simp [hsticky, h401]
  refine ⟨?_, ?_, ?_, ?_⟩
  · rw [hbase]
    cases henv : env.refreshOk
    · simp [List.countP_cons, isRefreshCall]
    · cases h2 : env.register b 1 <;>
        simp [List.countP_cons, isRefreshCall]
  · intro henv
    rw [hbase, henv]
    simp
  · intro henv
    rw [hbase, henv]
    refine ⟨?_, ?_, ?_⟩
    · cases h2 : env.register b 1 <;>
        simp [List.countP_cons, isRegisterSite]
    · intro s2 h2
      rw [h2]
      simp
    · intro s2 m2 h2
      rw [h2]
      simp
  · intro st en bb
    unfold registrationPhase
    repeat' split
    all_goals simp [List.countP_cons, isRegisterSite]

/-- Witness for claim_C7 in the environment whose refresh fails after a 401
registration result. -/
theorem claim_C7_witness :
    registrationPhase zeroSpec env401refreshFail 0 =
      ([.registerSite, .refreshTokenCall,
        .fatalExit "Failed to refresh token, try logging in again"], none) :=
  (claim_C7 zeroSpec env401refreshFail 0 { siteID := "x", resultCode := 401 }
    "unauthorized" rfl rfl rfl).2.1 rfl

/-- Claim C2 counterexample: a run with one EOF-triggered reconnect contains
two certificate manager creations, two reverse proxy creations, two loopback
TLS listeners and two TLS server task starts — the reconnect rebuilt every
one of them, where the claim says none of these are created during
reconnect. -/
theorem claim_C2_counterexample :
    (startTrace baseConfig happyEnv portsSeq [.eof]).countP isCertManager = 2 ∧
    (startTrace baseConfig happyEnv portsSeq [.eof]).countP isReverseProxy = 2 ∧
    (startTrace baseConfig happyEnv portsSeq [.eof]).countP isListenLoopback = 2 ∧
    (startTrace baseConfig happyEnv portsSeq [.eof]).countP isTLSServerTask = 2 := by
  refine ⟨rfl, rfl, rfl, rfl⟩

/-- Claim C2 amended: on EOF the accept loop closes the old remote listener
and rebuilds the session via generateListener with the sticky specification
(skipping registration, since the sticky result code is non-zero), and the
rebuild does create a new certificate manager, reverse proxy, loopback TLS
listener, TLS server task and remote listener; the endpoint and
specification the rebuild returns are discarded and the loop continues with
the originally recorded ones. -/
theorem claim_C2_amended (cfg : Config) (env : Env) (ports : Nat → Int)
    (ep : Endpoint) (spec : SiteSpecification) (b : Nat) (rest : List AcceptResult)
    (hsticky : spec.resultCode ≠ 0)
    (hdial : (dialAttempts (env.dialOk b) 0).2 = true) :
    acceptLoop cfg env ports ep spec b (.eof :: rest) =
      .closeRemoteListener :: ((generateListener cfg spec env b (ports b)).1 ++
        acceptLoop cfg env ports ep spec (b + 1) rest) ∧
    (generateListener cfg spec env b (ports b)).1.countP isRegisterSite = 0 ∧
    Event.createCertManager (certWhitelist spec.siteID) (certEmail spec.siteID) "certs"
        ∈ (generateListener cfg spec env b (ports b)).1 ∧
    Event.createReverseProxy ("http://" ++ cfg.host ++ ":" ++ toString cfg.port)
        ∈ (generateListener cfg spec env b (ports b)).1 ∧
    Event.listenLoopback (ports b) ∈ (generateListener cfg spec env b (ports b)).1 ∧
    Event.startTLSServerTask ∈ (generateListener cfg spec env b (ports b)).1 ∧
    Event.listenRemote ∈ (generateListener cfg spec env b (ports b)).1 ∧
    (generateListener cfg spec env b (ports b)).2 =
      some (⟨"127.0.0.1", ports b⟩, spec) := by
  have hreg : registrationPhase spec env b = ([], some spec) := by
    unfold registrationPhase
    simp [hsticky]
  have hgl : generateListener cfg spec env b (ports b) =
      ([] ++ (dialAttempts (env.dialOk b) 0).1 ++
        [.createCertManager (certWhitelist spec.siteID) (certEmail spec.siteID) "certs",
         .createReverseProxy ("http://" ++ cfg.host ++ ":" ++ toString cfg.port),
         .listenLoopback (ports b),
         .startTLSServerTask,
         .listenRemote,
         .printForwarding ("https://" ++ spec.siteID ++ ".loophole.site")
           (cfg.host ++ ":" ++ toString cfg.port)] ++
        (if cfg.qr then [.printQR ("http://" ++ spec.siteID ++ ".loophole.site")] else []),
       some (⟨"127.0.0.1", ports b⟩, spec)) := by
    unfold generateListener
    rw [hreg]
    simp [hdial]
  refine ⟨?_, ?_, ?_, ?_, ?_, ?_, ?_, ?_⟩
  · rw [acceptLoop, hgl]
  · rw [hgl]
    have hdc := dialAttempts_countP isRegisterSite (fun _ => rfl) rfl (env.dialOk b) 0
    simp [List.countP_append, List.countP_cons, hdc, isRegisterSite]
  · rw [hgl]; simp
  · rw [hgl]; simp
  · rw [hgl]; simp
  · rw [hgl]; simp
  · rw [hgl]; simp
  · rw [hgl]

/-- Witness for claim_C2_amended: the second build of the happy environment
returns the fresh endpoint that the accept loop then discards. -/
theorem claim_C2_amended_witness :
    (generateListener baseConfig mySpec happyEnv 1 (portsSeq 1)).2 =
      some (⟨"127.0.0.1", portsSeq 1⟩, mySpec) :=
  (claim_C2_amended baseConfig happyEnv portsSeq ⟨"127.0.0.1", 40000⟩ mySpec 1 []
    (by decide) rfl).2.2.2.2.2.2.2

/-- Claim C5 counterexample: the certificate manager of a concrete
successful build whitelists two hosts, the site hostname and the stray
literal abc.loophole.site — not the singleton set of the claim. -/
theorem claim_C5_counterexample :
    Event.createCertManager (certWhitelist "mysite") (certEmail "mysite") "certs"
      ∈ (generateListener baseConfig zeroSpec happyEnv 0 (portsSeq 0)).1 ∧
    certWhitelist "mysite" = ["mysite.loophole.site", "abc.loophole.site"] ∧
    "abc.loophole.site" ∈ certWhitelist "mysite" ∧
    (certWhitelist "mysite").length = 2 := by
  refine ⟨by decide, rfl, by decide, rfl⟩

/-- Claim C5 amended: every successful session build creates exactly one
certificate manager, whose host whitelist is the two-element list holding
the site hostname and the literal abc.loophole.site, whose contact email is
derived from the site identifier, and whose cache directory is the per-user
certs store. -/
theorem claim_C5_amended (cfg : Config) (sticky spec : SiteSpecification) (env : Env)
    (b : Nat) (port : Int) (revs : List Event)
    (hreg : registrationPhase sticky env b = (revs, some spec))
    (hdial : (dialAttempts (env.dialOk b) 0).2 = true) :
    Event.createCertManager
        [spec.siteID ++ ".loophole.site", "abc.loophole.site"]
        (spec.siteID ++ "@loophole.main.dev") "certs"
      ∈ (generateListener cfg sticky env b port).1 ∧
    (generateListener cfg sticky env b port).1.countP isCertManager = 1 := by
  have hrev : revs.countP isCertManager = 0 := by
    have := registrationPhase_countP isCertManager rfl rfl (fun _ => rfl) sticky env b
    rw [hreg] at this
    exact this
  have hdc := dialAttempts_countP isCertManager (fun _ => rfl) rfl (env.dialOk b) 0
  constructor
  · unfold generateListener
    rw [hreg]
    simp [hdial, certWhitelist, certEmail]
  · unfold generateListener
    rw [hreg]
    simp only [hdial, if_pos]
    simp [List.countP_append, List.countP_cons, hrev, hdc, isCertManager]

/-- Witness for claim_C5_amended on the first build of the happy
environment. -/
theorem claim_C5_amended_witness :
    Event.createCertManager
        [mySpec.siteID ++ ".loophole.site", "abc.loophole.site"]
        (mySpec.siteID ++ "@loophole.main.dev") "certs"
      ∈ (generateListener baseConfig zeroSpec happyEnv 0 (portsSeq 0)).1 :=
  (claim_C5_amended baseConfig zeroSpec mySpec happyEnv 0 (portsSeq 0)
    [.registerSite] rfl rfl).1

/-- Claim C8: with config.qr set the forwarding line prints the https public
URL, but the QR code rendered right after it encodes the http URL of the
same host (loophole.go line 358 formats http, not https), so the QR payload
is not the https address at which public clients reach the service. -/
theorem claim_C8_qr_encodes_http :
    Event.printForwarding "https://mysite.loophole.site" "127.0.0.1:3000"
      ∈ (generateListener baseConfig zeroSpec happyEnv 0 (portsSeq 0)).1 ∧
    Event.printQR "http://mysite.loophole.site"
      ∈ (generateListener baseConfig zeroSpec happyEnv 0 (portsSeq 0)).1 ∧
    (generateListener baseConfig zeroSpec happyEnv 0 (portsSeq 0)).1.countP
      (fun e => e == Event.printQR "https://mysite.loophole.site") = 0 := by
  refine ⟨by decide, by decide, by decide⟩

/-- Claim C10: every local dial performed during the whole process targets
the loopback endpoint recorded by the first session build, whatever
reconnects happened before it — the accept loop discards every later
build's endpoint. -/
theorem claim_C10 (cfg : Config) (env : Env) (ports : Nat → Int)
    (accepts : List AcceptResult) (ep : Endpoint) (spec : SiteSpecification)
    (evs0 : List Event) (t : String)
    (hfirst : generateListener cfg zeroSpec env 0 (ports 0) = (evs0, some (ep, spec)))
    (ht : Event.dialLocal t ∈ startTrace cfg env ports accepts) :
    t = ep.string := by
  unfold startTrace at ht
  rw [hfirst] at ht
  rcases List.mem_append.mp ht with h | h
  · exact absurd
      (show Event.dialLocal t ∈ (generateListener cfg zeroSpec env 0 (ports 0)).1 by
        rw [hfirst]; exact h)
      (generateListener_no_dialLocal cfg zeroSpec env 0 (ports 0) t)
  · exact acceptLoop_dialLocal cfg env ports ep spec accepts 1 t h

/-- Witness for claim_C10: after one reconnect the connection is still
relayed to the port of the first build. -/
theorem claim_C10_witness :
    "127.0.0.1:40000" = Endpoint.string ⟨"127.0.0.1", 40000⟩ :=
  claim_C10 baseConfig happyEnv portsSeq [.eof, .conn] ⟨"127.0.0.1", 40000⟩ mySpec
    (generateListener baseConfig zeroSpec happyEnv 0 (portsSeq 0)).1
    "127.0.0.1:40000" rfl (by decide)

end Loophole

namespace Relay

/-- The two connection handles of handleClient: the remote stream accepted
from the gateway (client) and the local TCP connection to the loopback
proxy. -/
inductive Conn where
  | client
  | localConn
deriving DecidableEq, Repr

/-- Copy directions of the two transfer goroutines. -/
inductive Dir where
  | localToClient
  | clientToLocal
deriving DecidableEq, Repr

/-- Observable events of handleClient and its copy goroutines. -/
inductive REvent where
  | spawnCopy (d : Dir)
  | recvDone
  | closeConn (c : Conn)
  | debugLog (d : Dir)
  | sendDone (d : Dir)
deriving DecidableEq, Repr

/-- Trace of the main task of handleClient (loophole.go lines 96-123): the
deferred client.Close is registered on entry and runs at return; the two
copy goroutines are spawned; the function blocks on exactly one receive
from chDone and returns, executing the deferred close of the client
connection.  The local connection appears nowhere: no statement closes
it. -/
def handleClientMain : List REvent :=
  [.spawnCopy .localToClient, .spawnCopy .clientToLocal, .recvDone,
   .closeConn .client]

/-- Trace of one copy goroutine of handleClient: io.Copy returns, any copy
error is logged at debug level only, then true is sent on chDone. -/
def copyTask (d : Dir) (copyErr : Bool) : List REvent :=
  (if copyErr then [.debugLog d] else []) ++ [.sendDone d]

/-- Claim C3 counterexample: by the time handleClient returns, the client
(remote) connection has been closed but the local connection has not been
closed — the claim says both connection handles are closed by return. -/
theorem claim_C3_counterexample :
    REvent.closeConn .client ∈ handleClientMain ∧
    handleClientMain.countP (fun e => e == REvent.closeConn .localConn) = 0 := by
  refine ⟨by decide, by decide⟩

/-- Claim C3 amended: handleClient spawns one copy goroutine per direction,
returns after the first completion signal (one receive on chDone), and at
return the client connection — and only the client connection — has been
closed by the deferred Close; each copy goroutine logs a copy error at
debug level only and then signals completion, closing nothing and
escalating nothing. -/
theorem claim_C3_amended :
    handleClientMain =
      [.spawnCopy .localToClient, .spawnCopy .clientToLocal, .recvDone,
       .closeConn .client] ∧
    handleClientMain.countP (fun e => e == REvent.recvDone) = 1 ∧
    (∀ d, copyTask d true = [.debugLog d, .sendDone d]) ∧
    (∀ d, copyTask d false = [.sendDone d]) ∧
    (∀ d c, (copyTask d c).countP
      (fun e => match e with | .closeConn _ => true | _ => false) = 0) := by
  refine ⟨rfl, by decide, fun d => rfl, fun d => rfl, ?_⟩
  intro d c
  cases c <;> rfl

end Relay
